import Mathlib

/-!
Verification of the Cryptex holding ledger: the position-update arithmetic in
`PortfolioHolding.update_holding`, the transaction entry point
`Transaction.create`, valuation in `PortfolioHolding.get_current_value` /
`PortfolioHolding.get_profit_loss`, and portfolio aggregation in
`Portfolio.get_total_value` / `Portfolio.get_total_invested` /
`Portfolio.get_profit_loss`.  Monetary quantities are embedded as exact
rationals; Python's `float` arithmetic is idealised as exact arithmetic, so
"within floating-point tolerance" statements become exact statements here.
-/

/-- State of one `PortfolioHolding` row (src/models/portfolio_holding.py):
the per-(portfolio, asset) position tracked by the ledger. -/
structure PortfolioHolding where
  crypto_id : Nat
  quantity : ℚ
  average_buy_price : ℚ
  total_invested : ℚ
deriving Repr, DecidableEq

/-- Embedding of `PortfolioHolding.update_holding`
(src/models/portfolio_holding.py lines 129-195).  `none` stands for the
Python method returning `False` with no mutation performed; `some h'` stands
for returning `True` after the row and the object were set to `h'`.  The
sell branch leaves `average_buy_price` untouched, exactly as the source's
UPDATE statement does. -/
def PortfolioHolding.update_holding (h : PortfolioHolding)
    (quantity_change price_per_unit : ℚ) (is_buy : Bool) : Option PortfolioHolding :=
  if is_buy then
    let new_quantity := h.quantity + quantity_change
    let new_invested := h.total_invested + quantity_change * price_per_unit
    let new_avg_price := if new_quantity > 0 then new_invested / new_quantity else 0
    some { h with quantity := new_quantity, average_buy_price := new_avg_price,
                  total_invested := new_invested }
  else
    let new_quantity := h.quantity - quantity_change
    if new_quantity < 0 then
      none
    else
      let new_invested :=
        if h.quantity > 0 then h.total_invested * (1 - quantity_change / h.quantity) else 0
      some { h with quantity := new_quantity, total_invested := new_invested }

/-- Embedding of `PortfolioHolding.get_current_value`
(src/models/portfolio_holding.py lines 197-219).  The latest-price query is
embedded as a lookup function from `crypto_id` to an optional price; the
source returns `quantity * price` when a row exists and `0.0` otherwise. -/
def PortfolioHolding.get_current_value (h : PortfolioHolding)
    (latest_price : Nat → Option ℚ) : ℚ :=
  match latest_price h.crypto_id with
  | some p => h.quantity * p
  | none => 0

/-- Result dictionary of the profit/loss computations:
`{'amount': ..., 'percentage': ...}`. -/
structure ProfitLoss where
  amount : ℚ
  percentage : ℚ
deriving Repr, DecidableEq

/-- Embedding of `PortfolioHolding.get_profit_loss`
(src/models/portfolio_holding.py lines 221-239). -/
def PortfolioHolding.get_profit_loss (h : PortfolioHolding)
    (latest_price : Nat → Option ℚ) : ProfitLoss :=
  let current_value := h.get_current_value latest_price
  if h.total_invested = 0 then
    ⟨0, 0⟩
  else
    ⟨current_value - h.total_invested,
     (current_value - h.total_invested) / h.total_invested * 100⟩

/-- One `Transaction` row's fields that matter to the ledger
(src/models/transaction.py). -/
structure Transaction where
  type : String
  quantity : ℚ
  price_per_unit : ℚ
  fee : ℚ
deriving Repr, DecidableEq

/-- Embedding of `Transaction.get_total_cost`
(src/models/transaction.py lines 284-296). -/
def Transaction.get_total_cost (t : Transaction) : ℚ :=
  let base_amount := t.quantity * t.price_per_unit
  if t.type = "buy" then base_amount + t.fee else base_amount - t.fee

/-- Embedding of the balance check in `Transaction.create`
(src/models/transaction.py line 64): `not holding or holding.quantity < quantity`. -/
def insufficientBalance (holding : Option PortfolioHolding) (quantity : ℚ) : Bool :=
  match holding with
  | none => true
  | some h => decide (h.quantity < quantity)

/-- Embedding of `Transaction.create` (src/models/transaction.py lines 34-95),
restricted to its effect on the `(portfolio, crypto)` holding.  `holding` is
the pre-existing row for the pair (`none` when absent); `crypto_id` keys the
zero row that `PortfolioHolding.get_or_create` inserts when the row is
absent.  Result `none` means the transaction was rejected before the INSERT;
`some h'` means the transaction row was persisted and the holding ended in
state `h'`.  Mirroring the source, the return value of `update_holding` is
ignored: when the update fails the transaction is still persisted and the
holding stays unchanged.  `fee` is accepted, stored on the transaction row,
and never forwarded to `update_holding`. -/
def Transaction.create (crypto_id : Nat) (holding : Option PortfolioHolding)
    (transaction_type : String) (quantity price_per_unit fee : ℚ) :
    Option PortfolioHolding :=
  if transaction_type ≠ "buy" ∧ transaction_type ≠ "sell" then
    none
  else if transaction_type = "sell" ∧ insufficientBalance holding quantity = true then
    none
  else
    let h := holding.getD ⟨crypto_id, 0, 0, 0⟩
    some ((h.update_holding quantity price_per_unit (decide (transaction_type = "buy"))).getD h)

/-- Embedding of `Portfolio.get_total_value`
(src/models/portfolio.py lines 154-185): sums `quantity * price` over the
portfolio's holdings with `quantity > 0`, joined against the latest price per
asset; a holding whose asset has no price row contributes nothing to the SQL
SUM, i.e. `0`. -/
def Portfolio.get_total_value (holdings : List PortfolioHolding)
    (latest_price : Nat → Option ℚ) : ℚ :=
  ((holdings.filter fun h => decide (0 < h.quantity)).map fun h =>
    match latest_price h.crypto_id with
    | some p => h.quantity * p
    | none => 0).sum

/-- Embedding of `Portfolio.get_total_invested`
(src/models/portfolio.py lines 187-206): sums `total_invested` over holdings
with `quantity > 0`. -/
def Portfolio.get_total_invested (holdings : List PortfolioHolding) : ℚ :=
  ((holdings.filter fun h => decide (0 < h.quantity)).map fun h =>
    h.total_invested).sum

/-- Embedding of `Portfolio.get_profit_loss`
(src/models/portfolio.py lines 208-227). -/
def Portfolio.get_profit_loss (holdings : List PortfolioHolding)
    (latest_price : Nat → Option ℚ) : ProfitLoss :=
  let total_value := Portfolio.get_total_value holdings latest_price
  let total_invested := Portfolio.get_total_invested holdings
  if total_invested = 0 then
    ⟨0, 0⟩
  else
    ⟨total_value - total_invested,
     (total_value - total_invested) / total_invested * 100⟩

/-- A valid position in the sense of the spec's data-model invariant:
non-negative quantity and `totalInvested = quantity * averageCost`. -/
def ValidPosition (h : PortfolioHolding) : Prop :=
  0 ≤ h.quantity ∧ h.total_invested = h.quantity * h.average_buy_price

/-- Unfolding lemma: the buy branch of `update_holding` always succeeds and
applies the weighted-average formulas of the source. -/
theorem update_holding_buy (h : PortfolioHolding) (qc pr : ℚ) :
    h.update_holding qc pr true =
      some ⟨h.crypto_id, h.quantity + qc,
        if h.quantity + qc > 0 then (h.total_invested + qc * pr) / (h.quantity + qc) else 0,
        h.total_invested + qc * pr⟩ := rfl

/-- Unfolding lemma: the sell branch of `update_holding` rejects exactly when
the resulting quantity would be negative, and otherwise reduces
`total_invested` proportionally, keeping `average_buy_price`. -/
theorem update_holding_sell (h : PortfolioHolding) (qc pr : ℚ) :
    h.update_holding qc pr false =
      if h.quantity - qc < 0 then none
      else some ⟨h.crypto_id, h.quantity - qc, h.average_buy_price,
        if h.quantity > 0 then h.total_invested * (1 - qc / h.quantity) else 0⟩ := rfl

example : PortfolioHolding.update_holding ⟨0, 0, 0, 0⟩ (1/2) 50000 true =
    some ⟨0, 1/2, 50000, 25000⟩ := by
  norm_num [PortfolioHolding.update_holding]

example : PortfolioHolding.update_holding ⟨0, 1/2, 50000, 25000⟩ (3/10) 55000 true =
    some ⟨0, 4/5, 51875, 41500⟩ := by
  norm_num [PortfolioHolding.update_holding]

example : PortfolioHolding.update_holding ⟨0, 4/5, 51875, 41500⟩ (1/5) 60000 false =
    some ⟨0, 3/5, 51875, 31125⟩ := by
  norm_num [PortfolioHolding.update_holding]

example : Transaction.create 0 (some ⟨0, 1, 100, 100⟩) "buy" (-1) 50 0 =
    some ⟨0, 0, 0, 50⟩ := by
  norm_num [Transaction.create, PortfolioHolding.update_holding,
    (show ("buy" : String) ≠ "sell" by decide)]

example : Transaction.create 0 (some ⟨0, 1, 100, 100⟩) "sell" 2 50 0 = none := by
  norm_num [Transaction.create, insufficientBalance,
    (show ("sell" : String) ≠ "buy" by decide)]

example : PortfolioHolding.update_holding ⟨0, 1, 100, 100⟩ 1 200 true =
    some ⟨0, 2, 150, 300⟩ := by
  norm_num [PortfolioHolding.update_holding]

example : PortfolioHolding.update_holding ⟨0, 2, 150, 300⟩ 1 200 false =
    some ⟨0, 1, 150, 150⟩ := by
  norm_num [PortfolioHolding.update_holding]

/-- C5: Buy semantics: a buy of `q > 0` at `pr > 0` against a position with
non-negative quantity yields `newQuantity = quantity + q`,
`newInvested = totalInvested + q * pr` and
`newAverageCost = newInvested / newQuantity`; in particular, from the
all-zero position, buying 0.5 units at 50000 and then 0.3 units at 55000
yields quantity 0.8, totalInvested 41500 and averageCost 51875. -/
theorem buy_semantics (h : PortfolioHolding) (q pr : ℚ)
    (hq0 : 0 ≤ h.quantity) (hq : 0 < q) (hpr : 0 < pr) :
    h.update_holding q pr true =
      some ⟨h.crypto_id, h.quantity + q,
        (h.total_invested + q * pr) / (h.quantity + q),
        h.total_invested + q * pr⟩ ∧
    PortfolioHolding.update_holding ⟨0, 0, 0, 0⟩ (1/2) 50000 true =
      some ⟨0, 1/2, 50000, 25000⟩ ∧
    PortfolioHolding.update_holding ⟨0, 1/2, 50000, 25000⟩ (3/10) 55000 true =
      some ⟨0, 4/5, 51875, 41500⟩ := by
  refine ⟨?_, by norm_num [PortfolioHolding.update_holding],
    by norm_num [PortfolioHolding.update_holding]⟩
  rw [update_holding_buy]
  have hpos : h.quantity + q > 0 := by linarith
  rw [if_pos hpos]

/-- Witness for C5: buying 1 unit at 20 against position (1, 10, 10). -/
theorem buy_semantics_witness :
    PortfolioHolding.update_holding ⟨0, 1, 10, 10⟩ 1 20 true = some ⟨0, 2, 15, 30⟩ :=
  ((buy_semantics ⟨0, 1, 10, 10⟩ 1 20 (by norm_num) (by norm_num) (by norm_num)).1).trans
    (by norm_num)

/-- C6: Sell semantics: an accepted sell of `0 < q ≤ quantity` at `pr > 0`
from a position with positive quantity yields `newQuantity = quantity - q`,
`newInvested = totalInvested * (1 - q / quantity)` and an unchanged
`average_buy_price`; selling the full balance yields quantity 0 and
totalInvested 0. -/
theorem sell_semantics (h : PortfolioHolding) (q pr : ℚ)
    (hpos : 0 < h.quantity) (hq : 0 < q) (hle : q ≤ h.quantity) (hpr : 0 < pr) :
    h.update_holding q pr false =
      some ⟨h.crypto_id, h.quantity - q, h.average_buy_price,
        h.total_invested * (1 - q / h.quantity)⟩ ∧
    (q = h.quantity →
      h.update_holding q pr false =
        some ⟨h.crypto_id, 0, h.average_buy_price, 0⟩) := by
  have hnn : ¬ h.quantity - q < 0 := by linarith
  have key : h.update_holding q pr false =
      some ⟨h.crypto_id, h.quantity - q, h.average_buy_price,
        h.total_invested * (1 - q / h.quantity)⟩ := by
    rw [update_holding_sell, if_neg hnn, if_pos hpos]
  refine ⟨key, fun hfull => ?_⟩
  rw [key, hfull, sub_self, div_self (ne_of_gt hpos)]
  norm_num

/-- Witness for C6: selling 1 of 2 units held at average cost 10. -/
theorem sell_semantics_witness :
    PortfolioHolding.update_holding ⟨0, 2, 10, 20⟩ 1 5 false = some ⟨0, 1, 10, 10⟩ :=
  ((sell_semantics ⟨0, 2, 10, 20⟩ 1 5 (by norm_num) (by norm_num) (by norm_num)
    (by norm_num)).1).trans (by norm_num)

/-- C2: State invariant: starting from a valid position (non-negative
quantity, `totalInvested = quantity * averageCost`), every successful
`update_holding` — a buy with positive quantity and price, or an accepted
sell with positive quantity and price not exceeding the held quantity —
yields a position that is again valid. -/
theorem update_holding_preserves_invariant (h : PortfolioHolding) (qc pr : ℚ)
    (b : Bool) (h' : PortfolioHolding) (hval : ValidPosition h)
    (hqc : 0 < qc) (hpr : 0 < pr) (hsell : b = false → qc ≤ h.quantity)
    (hupd : h.update_holding qc pr b = some h') : ValidPosition h' := by
  obtain ⟨hq0, hinv⟩ := hval
  cases b
  · have hle : qc ≤ h.quantity := hsell rfl
    have hpos : 0 < h.quantity := lt_of_lt_of_le hqc hle
    have hnn : ¬ h.quantity - qc < 0 := by linarith
    rw [update_holding_sell, if_neg hnn, if_pos hpos, Option.some.injEq] at hupd
    subst hupd
    constructor
    · show (0 : ℚ) ≤ h.quantity - qc
      linarith
    · show h.total_invested * (1 - qc / h.quantity) =
        (h.quantity - qc) * h.average_buy_price
      rw [hinv]
      field_simp
      ring
  · have hpos : h.quantity + qc > 0 := by linarith
    rw [update_holding_buy, if_pos hpos, Option.some.injEq] at hupd
    subst hupd
    constructor
    · show (0 : ℚ) ≤ h.quantity + qc
      linarith
    · show h.total_invested + qc * pr =
        (h.quantity + qc) * ((h.total_invested + qc * pr) / (h.quantity + qc))
      have hne : h.quantity + qc ≠ 0 := ne_of_gt hpos
      field_simp

/-- Witness for C2: buying 1 unit at 50 against the valid position
(1, 100, 100) gives the valid position (2, 75, 150). -/
theorem update_holding_preserves_invariant_witness : ValidPosition ⟨0, 2, 75, 150⟩ :=
  update_holding_preserves_invariant ⟨0, 1, 100, 100⟩ 1 50 true ⟨0, 2, 75, 150⟩
    ⟨by norm_num, by norm_num⟩ (by norm_num) (by norm_num)
    (fun hc => absurd hc (by decide))
    (by norm_num [PortfolioHolding.update_holding])

/-- C3: Insufficient-balance rejection: a sell whose quantity strictly
exceeds the held quantity makes `update_holding` return `False` with the
position untouched, and makes `Transaction.create` return `None` before the
transaction row is inserted. -/
theorem sell_insufficient_balance_rejected (h : PortfolioHolding) (q pr fee : ℚ)
    (hgt : h.quantity < q) :
    h.update_holding q pr false = none ∧
    Transaction.create h.crypto_id (some h) "sell" q pr fee = none := by
  have hneg : h.quantity - q < 0 := by linarith
  have hbal : insufficientBalance (some h) q = true := by
    simp [insufficientBalance, hgt]
  constructor
  · rw [update_holding_sell, if_pos hneg]
  · simp [Transaction.create, hbal]

/-- Witness for C3: selling 2 units when only 1 is held. -/
theorem sell_insufficient_balance_rejected_witness :
    PortfolioHolding.update_holding ⟨0, 1, 1, 1⟩ 2 1 false = none ∧
    Transaction.create 0 (some ⟨0, 1, 1, 1⟩) "sell" 2 1 0 = none :=
  sell_insufficient_balance_rejected ⟨0, 1, 1, 1⟩ 2 1 0 (by norm_num)

/-- Algebra of the sell-then-buy round trip: restoring `totalInvested` is
equivalent to the event price matching `totalInvested / quantity`. -/
theorem sellBuy_invested_iff (ti hq q pr : ℚ) (hhq : hq ≠ 0) (hqz : q ≠ 0) :
    ti * (1 - q / hq) + q * pr = ti ↔ pr * hq = ti := by
  constructor
  · intro heq
    have key : ti * (1 - q / hq) = ti - ti * q / hq := by ring
    rw [key] at heq
    have h5 : ti * q / hq = q * pr := by linarith
    rw [div_eq_iff hhq] at h5
    have h3 : q * (pr * hq) = q * ti := by linear_combination -h5
    exact mul_left_cancel₀ hqz h3
  · intro heq
    have key : ti * (1 - q / hq) + q * pr = ti - ti * q / hq + q * pr := by ring
    rw [key, ← heq]
    field_simp
    ring

/-- Algebra of the buy-then-sell round trip: restoring `totalInvested` is
equivalent to the event price matching `totalInvested / quantity` of the
starting position. -/
theorem buySell_invested_iff (ti hq q pr : ℚ) (hs : hq + q ≠ 0) (hqz : q ≠ 0) :
    (ti + q * pr) * (1 - q / (hq + q)) = ti ↔ pr * hq = ti := by
  constructor
  · intro heq
    have key : (ti + q * pr) * (1 - q / (hq + q)) =
        (ti + q * pr) - (ti + q * pr) * q / (hq + q) := by ring
    rw [key] at heq
    have h5 : (ti + q * pr) * q / (hq + q) = q * pr := by linarith
    rw [div_eq_iff hs] at h5
    have h3 : q * (pr * hq) = q * ti := by linear_combination -h5
    exact mul_left_cancel₀ hqz h3
  · intro heq
    rw [← heq]
    field_simp
    ring

/-- C1 (amended): Round-trip reversal: for a valid position and an event with
positive quantity and price, applying the event and then the inverse event
always restores `quantity`, but restores `totalInvested` exactly when
`pr * quantity = totalInvested` for the starting position (for a position
with positive quantity: when the event price equals the average cost). -/
theorem round_trip_quantity_restored_invested_iff (h : PortfolioHolding)
    (q pr : ℚ) (b : Bool) (h₁ h₂ : PortfolioHolding) (hq0 : 0 ≤ h.quantity)
    (hq : 0 < q) (hpr : 0 < pr)
    (e₁ : h.update_holding q pr b = some h₁)
    (e₂ : h₁.update_holding q pr (!b) = some h₂) :
    h₂.quantity = h.quantity ∧
    (h₂.total_invested = h.total_invested ↔ pr * h.quantity = h.total_invested) := by
  cases b
  · rw [update_holding_sell] at e₁
    by_cases hneg : h.quantity - q < 0
    · rw [if_pos hneg] at e₁
      exact absurd e₁ (by simp)
    rw [if_neg hneg] at e₁
    have hle : q ≤ h.quantity := by
      have := not_lt.mp hneg
      linarith
    have hpos : h.quantity > 0 := lt_of_lt_of_le hq hle
    rw [if_pos hpos, Option.some.injEq] at e₁
    subst e₁
    rw [Bool.not_false, update_holding_buy, Option.some.injEq] at e₂
    subst e₂
    constructor
    · show h.quantity - q + q = h.quantity
      ring
    · show h.total_invested * (1 - q / h.quantity) + q * pr = h.total_invested ↔
        pr * h.quantity = h.total_invested
      exact sellBuy_invested_iff h.total_invested h.quantity q pr
        (ne_of_gt hpos) (ne_of_gt hq)
  · rw [update_holding_buy, Option.some.injEq] at e₁
    subst e₁
    rw [Bool.not_true, update_holding_sell] at e₂
    dsimp only at e₂
    have hnn : ¬ h.quantity + q - q < 0 := by
      intro hc
      have : h.quantity < 0 := by linarith
      linarith
    have hpos : h.quantity + q > 0 := by linarith
    rw [if_neg hnn] at e₂
    simp only [if_pos hpos, Option.some.injEq] at e₂
    subst e₂
    constructor
    · show h.quantity + q - q = h.quantity
      ring
    · show (h.total_invested + q * pr) * (1 - q / (h.quantity + q)) =
        h.total_invested ↔ pr * h.quantity = h.total_invested
      exact buySell_invested_iff h.total_invested h.quantity q pr
        (ne_of_gt hpos) (ne_of_gt hq)

/-- Counterexample to C1 as stated: from the valid position
(quantity 1, averageCost 100, totalInvested 100), buying 1 unit at 200 and
then selling 1 unit at 200 ends with totalInvested 150, not the original
100 — the discrepancy is 50, far beyond any floating-point tolerance. -/
theorem round_trip_counterexample :
    ValidPosition ⟨0, 1, 100, 100⟩ ∧ (0 : ℚ) < 1 ∧ (0 : ℚ) < 200 ∧
    PortfolioHolding.update_holding ⟨0, 1, 100, 100⟩ 1 200 true =
      some ⟨0, 2, 150, 300⟩ ∧
    PortfolioHolding.update_holding ⟨0, 2, 150, 300⟩ 1 200 false =
      some ⟨0, 1, 150, 150⟩ ∧
    (⟨0, 1, 150, 150⟩ : PortfolioHolding).total_invested ≠
      (⟨0, 1, 100, 100⟩ : PortfolioHolding).total_invested := by
  refine ⟨⟨by norm_num, by norm_num⟩, by norm_num, by norm_num,
    by norm_num [PortfolioHolding.update_holding],
    by norm_num [PortfolioHolding.update_holding], by norm_num⟩

/-- Witness for C1 (amended): buy 1 at 100 then sell 1 at 100 from position
(1, 100, 100); price equals average cost, so quantity and totalInvested are
both restored. -/
theorem round_trip_quantity_restored_invested_iff_witness :
    (⟨0, 1, 100, 100⟩ : PortfolioHolding).quantity =
      (⟨0, 1, 100, 100⟩ : PortfolioHolding).quantity ∧
    ((⟨0, 1, 100, 100⟩ : PortfolioHolding).total_invested =
        (⟨0, 1, 100, 100⟩ : PortfolioHolding).total_invested ↔
      (100 : ℚ) * (⟨0, 1, 100, 100⟩ : PortfolioHolding).quantity =
        (⟨0, 1, 100, 100⟩ : PortfolioHolding).total_invested) :=
  round_trip_quantity_restored_invested_iff ⟨0, 1, 100, 100⟩ 1 100 true
    ⟨0, 2, 100, 200⟩ ⟨0, 1, 100, 100⟩ (by norm_num) (by norm_num) (by norm_num)
    (by norm_num [PortfolioHolding.update_holding])
    (by norm_num [PortfolioHolding.update_holding])

/-- Counterexample to C4 as stated: a buy with negative quantity -1 (price
50) is not rejected by `Transaction.create`: the transaction is persisted
(`create` does not return `None`) and the position is mutated from
(1, 100, 100) to (0, 0, 50). -/
theorem invalid_input_not_rejected_counterexample :
    Transaction.create 0 (some ⟨0, 1, 100, 100⟩) "buy" (-1) 50 0 =
      some ⟨0, 0, 0, 50⟩ ∧
    (⟨0, 0, 0, 50⟩ : PortfolioHolding) ≠ ⟨0, 1, 100, 100⟩ := by
  constructor
  · norm_num [Transaction.create, PortfolioHolding.update_holding,
      (show ("buy" : String) ≠ "sell" by decide)]
  · norm_num [PortfolioHolding.mk.injEq]

/-- C4 (amended): `Transaction.create` performs no positivity validation:
a buy event, even with non-positive quantity or non-positive price, is
persisted and applied to the holding with the buy formulas. -/
theorem buy_no_positivity_validation (h : PortfolioHolding) (q pr fee : ℚ)
    (hnp : q ≤ 0 ∨ pr ≤ 0) :
    Transaction.create h.crypto_id (some h) "buy" q pr fee =
      some ⟨h.crypto_id, h.quantity + q,
        if h.quantity + q > 0 then (h.total_invested + q * pr) / (h.quantity + q) else 0,
        h.total_invested + q * pr⟩ := by
  simp [Transaction.create, (show ("buy" : String) ≠ "sell" by decide),
    update_holding_buy]

/-- Witness for C4 (amended): a buy of quantity -2 at price 50 against the
position (1, 100, 100) is accepted and drives the quantity negative. -/
theorem buy_no_positivity_validation_witness :
    Transaction.create 0 (some ⟨0, 1, 100, 100⟩) "buy" (-2) 50 0 =
      some ⟨0, -1, 0, 0⟩ :=
  (buy_no_positivity_validation ⟨0, 1, 100, 100⟩ (-2) 50 0
    (Or.inl (by norm_num))).trans (by norm_num)

/-- C7 (amended): Valuation: with a current price `cp` available,
`get_current_value` returns `quantity * cp`; `get_profit_loss` returns
amount `currentValue - totalInvested` and percentage
`(amount / totalInvested) * 100` when `totalInvested` is nonzero, and
returns amount 0 and percentage 0 when `totalInvested = 0`. -/
theorem valuation_semantics (h : PortfolioHolding) (cp : ℚ) :
    h.get_current_value (fun _ => some cp) = h.quantity * cp ∧
    (h.total_invested = 0 → h.get_profit_loss (fun _ => some cp) = ⟨0, 0⟩) ∧
    (h.total_invested ≠ 0 →
      h.get_profit_loss (fun _ => some cp) =
        ⟨h.quantity * cp - h.total_invested,
         (h.quantity * cp - h.total_invested) / h.total_invested * 100⟩) := by
  refine ⟨rfl, fun h0 => ?_, fun h0 => ?_⟩
  · simp [PortfolioHolding.get_profit_loss, h0]
  · simp [PortfolioHolding.get_profit_loss, PortfolioHolding.get_current_value, h0]

/-- Counterexample to C7 as stated: for the position with quantity 1 and
totalInvested 0, at current price 100 the code returns profit/loss amount 0,
whereas `currentValue - totalInvested` is 100. -/
theorem valuation_zero_invested_counterexample :
    PortfolioHolding.get_profit_loss ⟨0, 1, 0, 0⟩ (fun _ => some 100) = ⟨0, 0⟩ ∧
    PortfolioHolding.get_current_value ⟨0, 1, 0, 0⟩ (fun _ => some 100) -
      (⟨0, 1, 0, 0⟩ : PortfolioHolding).total_invested = 100 ∧
    (⟨0, 0⟩ : ProfitLoss).amount ≠ 100 := by
  refine ⟨?_, ?_, by norm_num⟩
  · simp [PortfolioHolding.get_profit_loss]
  · norm_num [PortfolioHolding.get_current_value]

/-- Witness for C7 (amended): position (1, 2, 2) at price 5 values at 5,
with profit 3 and percentage 150. -/
theorem valuation_semantics_witness :
    PortfolioHolding.get_profit_loss ⟨0, 1, 2, 2⟩ (fun _ => some 5) = ⟨3, 150⟩ :=
  ((valuation_semantics ⟨0, 1, 2, 2⟩ 5).2.2 (by norm_num)).trans
    (by norm_num [ProfitLoss.mk.injEq])

/-- C8: Absent price as zero: when the price source has no price for the
asset, `get_current_value` returns 0 and the profit/loss amount is the
negative of `totalInvested`. -/
theorem absent_price_valuation (h : PortfolioHolding) (lp : Nat → Option ℚ)
    (habs : lp h.crypto_id = none) :
    h.get_current_value lp = 0 ∧
    (h.get_profit_loss lp).amount = -h.total_invested := by
  have hcv : h.get_current_value lp = 0 := by
    simp [PortfolioHolding.get_current_value, habs]
  refine ⟨hcv, ?_⟩
  by_cases h0 : h.total_invested = 0
  · simp [PortfolioHolding.get_profit_loss, h0]
  · simp [PortfolioHolding.get_profit_loss, h0, hcv]

/-- Witness for C8: position (1, 2, 2) with no price row values at 0 and
shows profit/loss amount -2. -/
theorem absent_price_valuation_witness :
    PortfolioHolding.get_current_value ⟨0, 1, 2, 2⟩ (fun _ => none) = 0 ∧
    (PortfolioHolding.get_profit_loss ⟨0, 1, 2, 2⟩ (fun _ => none)).amount = -2 :=
  absent_price_valuation ⟨0, 1, 2, 2⟩ (fun _ => none) rfl

/-- C9: Aggregation: a zero-quantity holding contributes nothing to the
portfolio totals (it is excluded from aggregation, while the stored list of
holdings is not modified); the portfolio profit/loss is the valuation
formula applied to the summed totals; and with no qualifying holdings all
totals are zero and the profit/loss is (0, 0) with no division by zero. -/
theorem aggregation_semantics (holdings : List PortfolioHolding)
    (lp : Nat → Option ℚ) (z : PortfolioHolding) :
    (z.quantity = 0 →
      Portfolio.get_total_value (z :: holdings) lp =
        Portfolio.get_total_value holdings lp ∧
      Portfolio.get_total_invested (z :: holdings) =
        Portfolio.get_total_invested holdings ∧
      Portfolio.get_profit_loss (z :: holdings) lp =
        Portfolio.get_profit_loss holdings lp) ∧
    (Portfolio.get_total_invested holdings ≠ 0 →
      Portfolio.get_profit_loss holdings lp =
        ⟨Portfolio.get_total_value holdings lp - Portfolio.get_total_invested holdings,
         (Portfolio.get_total_value holdings lp - Portfolio.get_total_invested holdings) /
           Portfolio.get_total_invested holdings * 100⟩) ∧
    ((∀ h' ∈ holdings, ¬ 0 < h'.quantity) →
      Portfolio.get_total_value holdings lp = 0 ∧
      Portfolio.get_total_invested holdings = 0 ∧
      Portfolio.get_profit_loss holdings lp = ⟨0, 0⟩) := by
  refine ⟨fun hz => ?_, fun hne => ?_, fun hall => ?_⟩
  · have hfilt : (z :: holdings).filter (fun h' => decide (0 < h'.quantity)) =
        holdings.filter (fun h' => decide (0 < h'.quantity)) := by
      rw [List.filter_cons]
      simp [hz]
    have h1 : Portfolio.get_total_value (z :: holdings) lp =
        Portfolio.get_total_value holdings lp := by
      unfold Portfolio.get_total_value
      rw [hfilt]
    have h2 : Portfolio.get_total_invested (z :: holdings) =
        Portfolio.get_total_invested holdings := by
      unfold Portfolio.get_total_invested
      rw [hfilt]
    refine ⟨h1, h2, ?_⟩
    simp only [Portfolio.get_profit_loss, h1, h2]
  · simp only [Portfolio.get_profit_loss, if_neg hne]
  · have hfilt : holdings.filter (fun h' => decide (0 < h'.quantity)) = [] :=
      List.filter_eq_nil.mpr (by simpa using hall)
    have h1 : Portfolio.get_total_value holdings lp = 0 := by
      unfold Portfolio.get_total_value
      rw [hfilt]
      rfl
    have h2 : Portfolio.get_total_invested holdings = 0 := by
      unfold Portfolio.get_total_invested
      rw [hfilt]
      rfl
    refine ⟨h1, h2, ?_⟩
    simp [Portfolio.get_profit_loss, h2]

/-- Witness for C9: a one-holding portfolio (1 unit, invested 10) priced at
20 has profit/loss amount 10 and percentage 100. -/
theorem aggregation_semantics_witness :
    Portfolio.get_profit_loss [⟨0, 1, 10, 10⟩] (fun _ => some 20) = ⟨10, 100⟩ := by
  have hne : Portfolio.get_total_invested [⟨0, 1, 10, 10⟩] ≠ 0 := by
    norm_num [Portfolio.get_total_invested, List.filter]
  exact ((aggregation_semantics [⟨0, 1, 10, 10⟩] (fun _ => some 20)
      ⟨0, 0, 0, 0⟩).2.1 hne).trans
    (by norm_num [Portfolio.get_total_value, Portfolio.get_total_invested,
      List.filter, ProfitLoss.mk.injEq])

/-- C10: Fees never affect position state: `Transaction.create` forwards
only quantity and price to the holding update, so two transactions differing
only in fee produce the same holding state; the fee enters only
`get_total_cost`, which is `quantity * price + fee` for a buy and
`quantity * price - fee` for a sell. -/
theorem fee_frame_property (cid : Nat) (holding : Option PortfolioHolding)
    (ttype : String) (q pr f₁ f₂ : ℚ) :
    Transaction.create cid holding ttype q pr f₁ =
      Transaction.create cid holding ttype q pr f₂ ∧
    Transaction.get_total_cost ⟨"buy", q, pr, f₁⟩ = q * pr + f₁ ∧
    Transaction.get_total_cost ⟨"sell", q, pr, f₁⟩ = q * pr - f₁ := by
  refine ⟨rfl, ?_, ?_⟩
  · simp [Transaction.get_total_cost]
  · simp [Transaction.get_total_cost, (show ("sell" : String) ≠ "buy" by decide)]
